import Mathlib

/-!
# Verification of the decibel python-sdk transaction pipeline and WebSocket multiplexer

A shallow embedding, in Lean 4, of the transaction construction / gas /
fee-payer / submission pipeline and of the WebSocket subscription
multiplexer of the `decibel` python SDK, together with proofs of the
spec-level claims about them.

Python sources embedded here:
 * `src/decibel/_transaction_builder.py` (argument encoder, transaction builder)
 * `src/decibel/_base.py`                (pipeline: build_tx, _send_tx, _wait_for_transaction)
 * `src/decibel/_utils.py`               (replay-protection nonce)
 * `src/decibel/_fee_pay.py`             (fee-payer relay selection)
 * `src/decibel/_gas_price_manager.py`   (gas price source state machine)
 * `src/decibel/read/_ws.py`             (subscription multiplexer)

Python strings are modelled through structurally-recursive helpers over
`List Char` (mirroring `str.replace`, `str.strip`, `str.split`, membership
tests), so that every definition evaluates by kernel reduction on
concrete inputs.  Network I/O is modelled by passing response values (or
whole response streams) as explicit arguments; randomness is modelled by
an explicit stream of draws.
-/

namespace Decibel

/-! ## Python string-operation helpers (structural, kernel-reducible) -/

/-- Python `str.strip()`: remove leading and trailing whitespace. -/
def pyStripChars (l : List Char) : List Char :=
  ((l.dropWhile Char.isWhitespace).reverse.dropWhile Char.isWhitespace).reverse

/-- Python `s.split("::")` (greedy, left to right). -/
def splitOnColonsGo : List Char → List Char → List String
  | acc, [] => [⟨acc.reverse⟩]
  | acc, ':' :: ':' :: rest => ⟨acc.reverse⟩ :: splitOnColonsGo [] rest
  | acc, c :: rest => splitOnColonsGo (c :: acc) rest

def splitOnColons (s : String) : List String := splitOnColonsGo [] s.data

/-- Python `needle in hay` on strings (substring containment). -/
def containsSub (needle : List Char) : List Char → Bool
  | [] => needle.isEmpty
  | c :: rest => needle.isPrefixOf (c :: rest) || containsSub needle rest

/-- The characters of `hay` strictly after the first occurrence of `needle`
(used for `param_type.find("Option<") + 7` slicing). -/
def afterFirstSub (needle : List Char) : List Char → List Char
  | [] => []
  | c :: rest =>
    if needle.isPrefixOf (c :: rest) then (c :: rest).drop needle.length
    else afterFirstSub needle rest

/-- The characters of `l` strictly before the last occurrence of `'>'`
(used for the `param_type.rfind(">")` slice bound). -/
def upToLastGt (l : List Char) : List Char :=
  ((l.reverse.dropWhile (fun c => c ≠ '>')).drop 1).reverse

/-- `param.replace("&", "").strip()` — the parameter-type normalisation used
throughout `_transaction_builder.py`. -/
def normalizeParam (s : String) : String :=
  ⟨pyStripChars (s.data.filter (fun c => c ≠ '&'))⟩

/-- Python `s.removeprefix("0x")`. -/
def strip0x (s : String) : List Char :=
  if "0x".data.isPrefixOf s.data then s.data.drop 2 else s.data

/-! ## BCS primitives (aptos_sdk `Serializer`)

Bytes are modelled as `List Nat` with every element `< 256`.  `uleb128` is
written with a fuel argument (the value itself, always sufficient since the
value shrinks by a factor of 128 each step) to keep it structurally
recursive and kernel-reducible. -/

def uleb128Go : Nat → Nat → List Nat
  | 0, n => [n % 128]
  | fuel + 1, n => if n < 128 then [n] else (n % 128 + 128) :: uleb128Go fuel (n / 128)

/-- aptos_sdk `Serializer.uleb128`. -/
def uleb128 (n : Nat) : List Nat := uleb128Go n n

/-- Little-endian fixed-width integer bytes (`Serializer.u8/u16/.../u256`
all use this shape with the corresponding byte length). -/
def uintLEBytes (byteLen : Nat) (n : Nat) : List Nat :=
  (List.range byteLen).map fun i => n / 256 ^ i % 256

/-- aptos_sdk `Serializer.u64` (valid for values `< 2^64`). -/
def u64LE (n : Nat) : List Nat := uintLEBytes 8 n

/-- aptos_sdk `Serializer.str`: uleb128 byte length, then UTF-8 bytes. -/
def serStrBytes (s : String) : List Nat :=
  let bytes := s.toUTF8.toList.map (fun b => b.toNat)
  uleb128 bytes.length ++ bytes

/-- aptos_sdk `Serializer.to_bytes`: uleb128 length prefix, then raw bytes. -/
def toBytesSer (bs : List Nat) : List Nat := uleb128 bs.length ++ bs

/-- The BCS serialization of `AccountAddress.from_str("0x0")`: 32 zero bytes. -/
def zeroAddressBytes : List Nat := List.replicate 32 0

theorem uleb128_single (n : Nat) (h : n < 128) : uleb128 n = [n] := by
  cases n with
  | zero => rfl
  | succ m => simp [uleb128, uleb128Go, h]

/-! ## Argument Encoder (`_transaction_builder.py`)

Caller-supplied argument values (Python `Any`) are modelled by the closed
`Arg` universe of value shapes the encoder actually meets: `None`, bools,
ints, strings, byte strings, account addresses (represented by their 32
serialized bytes) and lists. -/

inductive Arg where
  | none
  | bool (b : Bool)
  | int (n : Int)
  | str (s : String)
  | bytes (bs : List Nat)
  | addr (bs : List Nat)
  | list (xs : List Arg)

/-- Python truthiness (`bool(arg)`). -/
def argTruthy : Arg → Bool
  | .none => false
  | .bool b => b
  | .int n => n != 0
  | .str s => s != ""
  | .bytes bs => !bs.isEmpty
  | .addr _ => true
  | .list xs => !xs.isEmpty

/-- Decimal digit run to a number (helper for Python `int(str)`). -/
def digitsToNat : Option Nat → List Char → Option Nat
  | acc, [] => acc
  | acc, c :: rest =>
    if c.isDigit then digitsToNat (some ((acc.getD 0) * 10 + (c.toNat - 48))) rest
    else Option.none

/-- Python `int(arg)`: ints pass through, bools to 0/1, numeric strings
(optionally signed, surrounding whitespace allowed) are parsed; everything
else raises. -/
def pyInt : Arg → Except String Int
  | .int n => .ok n
  | .bool b => .ok (if b then 1 else 0)
  | .str s =>
    match pyStripChars s.data with
    | '-' :: rest =>
      match digitsToNat Option.none rest with
      | some n => .ok (-(n : Int))
      | Option.none => .error s!"invalid literal for int: {s}"
    | '+' :: rest =>
      match digitsToNat Option.none rest with
      | some n => .ok (n : Int)
      | Option.none => .error s!"invalid literal for int: {s}"
    | rest =>
      match digitsToNat Option.none rest with
      | some n => .ok (n : Int)
      | Option.none => .error s!"invalid literal for int: {s}"
  | _ => .error "cannot coerce argument to int"

/-- Fixed-width unsigned serialization with the range check the aptos_sdk
serializer (`struct.pack`) performs. -/
def serUInt (byteLen : Nat) (n : Int) : Except String (List Nat) :=
  if 0 ≤ n ∧ n < (2 : Int) ^ (8 * byteLen) then .ok (uintLEBytes byteLen n.toNat)
  else .error "integer argument out of range"

/-- Python `bytes(arg)` for the `vector<u8>` fallback branch: byte strings
pass through, lists of in-range ints convert, a non-negative int `n` gives
`n` zero bytes; everything else raises. -/
def pyBytes : Arg → Except String (List Nat)
  | .bytes bs => .ok bs
  | .list xs =>
    xs.mapM fun a =>
      match a with
      | .int n => if 0 ≤ n ∧ n < 256 then .ok n.toNat else .error "bytes must be in range(0, 256)"
      | _ => .error "cannot convert list element to byte"
  | .int n => if 0 ≤ n then .ok (List.replicate n.toNat 0) else .error "negative count"
  | _ => .error "cannot convert argument to bytes"

/-- One hex digit value. -/
def hexDigit (c : Char) : Option Nat :=
  if '0' ≤ c ∧ c ≤ '9' then some (c.toNat - 48)
  else if 'a' ≤ c ∧ c ≤ 'f' then some (c.toNat - 87)
  else if 'A' ≤ c ∧ c ≤ 'F' then some (c.toNat - 55)
  else Option.none

/-- Python `bytes.fromhex` (pairs of hex digits; odd length or a bad digit
raises). -/
def hexDecode : List Char → Except String (List Nat)
  | [] => .ok []
  | [_] => .error "non-hexadecimal number found in fromhex arg"
  | c1 :: c2 :: rest =>
    match hexDigit c1, hexDigit c2 with
    | some h, some l => (hexDecode rest).map (fun t => (16 * h + l) :: t)
    | _, _ => .error "non-hexadecimal number found in fromhex arg"

/-- Python `str(arg)` as used by the `0x1::string::String` branch.  The
`repr`-style text Python produces for containers is not modelled precisely
(those calls would serialize a debug string; no claim depends on it). -/
def pyStr : Arg → String
  | .str s => s
  | .int n => toString n
  | .bool b => if b then "True" else "False"
  | .none => "None"
  | .bytes _ => "<bytes>"
  | .addr _ => "<address>"
  | .list _ => "<list>"

/-- aptos_sdk `AccountAddress.from_str` followed by `.serialize`: strip the
`0x`, left-pad to 32 bytes.  Bad hex digits or more than 64 digits raise. -/
def parseAccountAddress (s : String) : Except String (List Nat) :=
  let hexChars := strip0x s
  if hexChars.isEmpty || hexChars.length > 64 then .error s!"invalid account address {s}"
  else
    match hexDecode (if hexChars.length % 2 = 1 then '0' :: hexChars else hexChars) with
    | .error e => .error e
    | .ok bs => .ok (List.replicate (32 - bs.length) 0 ++ bs)

/-- The `address` (and object) branch of `_encode_argument`: strings go
through `AccountAddress.from_str`, address values serialize as they are. -/
def encodeAddressArg : Arg → Except String (List Nat)
  | .str s => parseAccountAddress s
  | .addr bs => .ok bs
  | _ => .error "expected an account address argument"

/-- The element loop of `_encode_vector_bytes` (each element individually
encoded with the argument encoder, concatenated by `fixed_bytes`). -/
def encodeItemsWith (enc : Arg → Except String (List Nat)) :
    List Arg → Except String (List (List Nat))
  | [] => .ok []
  | a :: as => do
    let b ← enc a
    let rest ← encodeItemsWith enc as
    .ok (b :: rest)

/-- `_encode_argument` / `_encode_vector_bytes` / `_encode_option_bytes`
from `_transaction_builder.py`.  These recurse on the inner type text of
`vector<...>` / `Option<...>`; the `fuel` argument keeps the recursion
structural, and the wrapper `encodeArgument` below supplies fuel that
always suffices (each recursive step strictly shrinks the type text). -/
def encodeArgumentGo : Nat → Arg → String → Except String (List Nat)
  | 0, _, _ => .error "parameter type nesting too deep"
  | fuel + 1, arg, paramType =>
    let t := normalizeParam paramType
    if t = "bool" then .ok [if argTruthy arg then 1 else 0]
    else if t = "u8" then pyInt arg >>= serUInt 1
    else if t = "u16" then pyInt arg >>= serUInt 2
    else if t = "u32" then pyInt arg >>= serUInt 4
    else if t = "u64" then pyInt arg >>= serUInt 8
    else if t = "u128" then pyInt arg >>= serUInt 16
    else if t = "u256" then pyInt arg >>= serUInt 32
    else if t = "address" then encodeAddressArg arg
    else if t = "vector<u8>" then
      match arg with
      | .bytes bs => .ok (toBytesSer bs)
      | .str s => (hexDecode (strip0x s)).map toBytesSer
      | a => pyBytes a >>= fun bs => .ok (toBytesSer bs)
    else if "vector<".data.isPrefixOf t.data then
      match arg with
      | .list xs => do
        let items ← encodeItemsWith (fun a => encodeArgumentGo fuel a ⟨(t.data.drop 7).dropLast⟩) xs
        .ok (uleb128 xs.length ++ items.flatten)
      | _ => .error "expected a list argument for a vector parameter"
    else if t = "0x1::string::String" then .ok (serStrBytes (pyStr arg))
    else if containsSub "::option::Option<".data t.data then
      match arg with
      | .none => .ok [0]
      | a =>
        (encodeArgumentGo fuel a ⟨upToLastGt (afterFirstSub "Option<".data t.data)⟩).map
          (fun bs => 1 :: bs)
    else if containsSub "::object::Object<".data t.data || "::Object".data.isSuffixOf t.data then
      encodeAddressArg arg
    else .error s!"Cannot encode argument for param type {t}"

/-- `_encode_argument(arg, param_type)`, with sufficient fuel (the type
text strictly shrinks at every recursive step, so its length bounds the
recursion depth). -/
def encodeArgument (arg : Arg) (paramType : String) : Except String (List Nat) :=
  encodeArgumentGo (paramType.length + 1) arg paramType

/-- The element loop of `_encode_function_arguments` (`zip` over matched
argument/parameter lists; only called with lists of equal length). -/
def encodeArgsLoop : List Arg → List String → Except String (List (List Nat))
  | [], [] => .ok []
  | a :: as, t :: ts =>
    match encodeArgument a t with
    | .error e => .error e
    | .ok b =>
      match encodeArgsLoop as ts with
      | .error e => .error e
      | .ok rest => .ok (b :: rest)
  | _, _ => .error "argument/parameter zip length mismatch"

/-- The count-mismatch error text of `_encode_function_arguments`. -/
def countMismatchMsg (expected got : Nat) : String :=
  s!"Argument count mismatch: expected {expected}, got {got}"

/-- `_encode_function_arguments(args, param_types)`. -/
def encodeFunctionArguments (args : List Arg) (paramTypes : List String) :
    Except String (List (List Nat)) :=
  if args.length ≠ paramTypes.length then
    .error (countMismatchMsg paramTypes.length args.length)
  else encodeArgsLoop args paramTypes

/-- `_find_first_non_signer_arg(params)`: index of the first parameter whose
normalised text is not `signer`; the full length when all are signers. -/
def findFirstNonSignerArg : List String → Nat
  | [] => 0
  | p :: ps => if normalizeParam p ≠ "signer" then 0 else findFirstNonSignerArg ps + 1

/-! ## Transaction Builder (`_transaction_builder.py`) -/

/-- The ABI function signature (`abi/_types.py` `MoveFunction`); only the
fields the transaction builder reads are carried. -/
structure MoveFunction where
  name : String
  isEntry : Bool
  params : List String
deriving DecidableEq

/-- `InputEntryFunctionData` (`type_arguments=None` is modelled as `[]`,
which the source normalises to with `data.type_arguments or []`). -/
structure InputEntryFunctionData where
  function : String
  functionArguments : List Arg := []
  typeArguments : List String := []

/-- The assembled `EntryFunction`.  Its own BCS layout (module id, name,
type tags, args) lives in the external aptos_sdk and is treated as an
abstract encoder where serialization is concerned; the type-argument
strings are carried unparsed for the same reason (`_parse_type_tag`
delegates struct tags to aptos_sdk `StructTag.from_str`). -/
structure EntryFn where
  moduleAddress : String
  moduleName : String
  functionName : String
  typeArguments : List String
  args : List (List Nat)

/-- `_build_entry_function(data, abi)`. -/
def buildEntryFunction (data : InputEntryFunctionData) (abi : MoveFunction) :
    Except String EntryFn :=
  match splitOnColons data.function with
  | [moduleAddress, moduleName, functionName] =>
    let firstNonSigner := findFirstNonSignerArg abi.params
    let entryParams := abi.params.drop firstNonSigner
    match encodeFunctionArguments data.functionArguments entryParams with
    | .error e => .error e
    | .ok encodedArgs =>
      .ok { moduleAddress, moduleName, functionName,
            typeArguments := data.typeArguments, args := encodedArgs }
  | _ =>
    let fn := data.function
    .error s!"Invalid function format: {fn}, expected address::module::function"

/-- BCS variant constants for orderless transaction payloads (fixed
protocol constants). -/
def PAYLOAD_VARIANT_ORDERLESS : Nat := 4

def INNER_PAYLOAD_VARIANT_V1 : Nat := 0

def EXECUTABLE_VARIANT_ENTRY_FUNCTION : Nat := 1

def EXTRA_CONFIG_VARIANT_V1 : Nat := 0

def DEADBEEF_SEQUENCE_NUMBER : Nat := 0xDEADBEEF

/-- `TransactionExtraConfigV1.serialize`: variant tag, multisig presence
byte (+ address bytes when present), nonce presence byte (+ u64 nonce when
present). -/
def serializeTransactionExtraConfigV1 (multisigAddress : Option (List Nat))
    (replayProtectionNonce : Option Nat) : List Nat :=
  uleb128 EXTRA_CONFIG_VARIANT_V1 ++
    (match multisigAddress with
     | Option.none => [0]
     | some a => 1 :: a) ++
    (match replayProtectionNonce with
     | Option.none => [0]
     | some n => 1 :: u64LE n)

/-- `TransactionExecutableEntryFunction.serialize`: executable variant tag,
then the entry function's own (external) encoding. -/
def serializeTransactionExecutableEntryFunction (entryFunctionBytes : List Nat) : List Nat :=
  uleb128 EXECUTABLE_VARIANT_ENTRY_FUNCTION ++ entryFunctionBytes

/-- `TransactionInnerPayloadV1.serialize`. -/
def serializeTransactionInnerPayloadV1 (entryFunctionBytes : List Nat)
    (multisigAddress : Option (List Nat)) (replayProtectionNonce : Option Nat) : List Nat :=
  uleb128 INNER_PAYLOAD_VARIANT_V1 ++
    serializeTransactionExecutableEntryFunction entryFunctionBytes ++
    serializeTransactionExtraConfigV1 multisigAddress replayProtectionNonce

/-- The orderless payload value held by a built transaction
(`TransactionPayloadOrderless(TransactionInnerPayloadV1(executable, extra_config))`). -/
structure OrderlessPayload where
  entryFunction : EntryFn
  multisigAddress : Option (List Nat)
  replayProtectionNonce : Option Nat

/-- `TransactionPayloadOrderless.serialize`, parameterised by the external
aptos_sdk `EntryFunction.serialize` encoder. -/
def serializeTransactionPayloadOrderless (encodeEntryFunction : EntryFn → List Nat)
    (p : OrderlessPayload) : List Nat :=
  uleb128 PAYLOAD_VARIANT_ORDERLESS ++
    serializeTransactionInnerPayloadV1 (encodeEntryFunction p.entryFunction)
      p.multisigAddress p.replayProtectionNonce

/-- `generate_expire_timestamp`: `int((now_ms + time_delta_ms) / 1000) +
default_txn_expiry_sec` (Python float division + `int()` truncation,
modelled as truncating integer division). -/
def generateExpireTimestamp (nowMs timeDeltaMs defaultTxnExpirySec : Int) : Int :=
  (nowMs + timeDeltaMs).tdiv 1000 + defaultTxnExpirySec

/-- aptos_sdk `RawTransaction` as constructed by the builder. -/
structure RawTxn where
  sender : List Nat
  sequenceNumber : Nat
  payload : OrderlessPayload
  maxGasAmount : Int
  gasUnitPrice : Int
  expirationTimestampSecs : Int
  chainId : Nat

/-- `SimpleTransaction`. -/
structure SimpleTxn where
  rawTransaction : RawTxn
  feePayerAddress : Option (List Nat)

/-- `build_simple_transaction_sync`.  The wall clock (`time.time() * 1000`)
is passed explicitly as `nowMs`; the trailing optional parameters keep the
source's defaults (`time_delta_ms=0`, `max_gas_amount=100_000`,
`default_txn_expiry_sec=20`). -/
def buildSimpleTransactionSync (sender : List Nat) (data : InputEntryFunctionData)
    (chainId : Nat) (gasUnitPrice : Int) (abi : MoveFunction) (withFeePayer : Bool)
    (replayProtectionNonce : Nat) (nowMs : Int) (timeDeltaMs : Int := 0)
    (maxGasAmount : Int := 100000) (defaultTxnExpirySec : Int := 20) :
    Except String SimpleTxn :=
  match buildEntryFunction data abi with
  | .error e => .error e
  | .ok entryFunction =>
    .ok { rawTransaction :=
            { sender,
              sequenceNumber := DEADBEEF_SEQUENCE_NUMBER,
              payload := { entryFunction,
                           multisigAddress := Option.none,
                           replayProtectionNonce := some replayProtectionNonce },
              maxGasAmount,
              gasUnitPrice,
              expirationTimestampSecs :=
                generateExpireTimestamp nowMs timeDeltaMs defaultTxnExpirySec,
              chainId },
          feePayerAddress := if withFeePayer then some zeroAddressBytes else Option.none }

/-! ## Replay-protection nonce (`_utils.py`) -/

/-- `generate_random_replay_protection_nonce`, with the pair of
`secrets.randbits(32)` draws passed explicitly.  Returns `None` when
either 32-bit half is zero, else `(hi << 32) | lo`. -/
def generateRandomReplayProtectionNonce (draw : Nat × Nat) : Option Nat :=
  if draw.1 = 0 || draw.2 = 0 then Option.none
  else some ((draw.1 <<< 32) ||| draw.2)

/-! ## Transaction Pipeline (`_base.py`) -/

def DEFAULT_MAX_GAS_AMOUNT : Int := 200000

def DEFAULT_GAS_ESTIMATE : Int := 100

def MAX_GAS_UNITS_LIMIT : Int := 2000000

/-- Python `x or d` over an optional int (`None` and `0` are falsy). -/
def pyOrInt (x : Option Int) (d : Int) : Int :=
  match x with
  | Option.none => d
  | some v => if v = 0 then d else v

/-- The gas-unit-price sources `build_tx` consults when the caller gives no
override: a gas price manager (its cached value, and the outcome of its
on-demand fetch) or, with no manager attached, the one-shot node estimate
query.  Fetch outcomes are passed explicitly (network is external). -/
inductive GasPriceEnv where
  | manager (cached : Option Int) (fetchResult : Except String Int)
  | noManager (fetchResult : Except String Int)

/-- The gas-unit-price resolution of `build_tx`: caller override, else the
manager's cached value, else the manager fetch, else the node estimate. -/
def resolveGasUnitPrice (gasUnitPrice : Option Int) (env : GasPriceEnv) : Except String Int :=
  match gasUnitPrice with
  | some p => .ok p
  | Option.none =>
    match env with
    | .manager (some cached) _ => .ok cached
    | .manager Option.none fetchResult => fetchResult
    | .noManager fetchResult => fetchResult

/-- `BaseSDK.build_tx` (the `BaseSDKSync` body is identical): draw the
nonce (raising when the draw is degenerate), check ABI and chain id,
resolve the gas unit price, then call `build_simple_transaction_sync` with
`with_fee_payer = not no_fee_payer` and
`max_gas_amount or DEFAULT_MAX_GAS_AMOUNT`.  `draws` is the stream of
`secrets.randbits(32)` pairs available to the call. -/
def buildTx (abi : Option MoveFunction) (chainId : Option Nat) (draws : Nat → Nat × Nat)
    (gasEnv : GasPriceEnv) (noFeePayer : Bool) (timeDeltaMs : Int) (nowMs : Int)
    (data : InputEntryFunctionData) (sender : List Nat)
    (maxGasAmount : Option Int := Option.none) (gasUnitPrice : Option Int := Option.none) :
    Except String SimpleTxn :=
  match generateRandomReplayProtectionNonce (draws 0) with
  | Option.none => .error "Unable to generate replay protection nonce"
  | some nonce =>
    match abi, chainId with
    | some functionAbi, some cid =>
      match resolveGasUnitPrice gasUnitPrice gasEnv with
      | .error e => .error e
      | .ok gup =>
        buildSimpleTransactionSync sender data cid gup functionAbi (!noFeePayer) nonce nowMs
          timeDeltaMs (pyOrInt maxGasAmount DEFAULT_MAX_GAS_AMOUNT)
    | _, _ =>
      let fn := data.function
      .error s!"Cannot build transaction: missing ABI for {fn} or chain_id is None"

/-- The gas-ceiling rebuild arithmetic of `_send_tx` after simulation. -/
def sendTxRebuildMaxGas (simulatedMaxGas : Int) : Int :=
  min (max (simulatedMaxGas * 2) DEFAULT_MAX_GAS_AMOUNT) MAX_GAS_UNITS_LIMIT

/-- The gas-unit-price rebuild arithmetic of `_send_tx` after simulation. -/
def sendTxRebuildGasPrice (simulatedGasPrice : Int) : Int :=
  max simulatedGasPrice 1

/-- The simulation branch of `_send_tx`: with the integers read back from
the node's simulation response, rebuild the envelope through `build_tx`
with the corrected gas bounds. -/
def sendTxRebuild (abi : Option MoveFunction) (chainId : Option Nat) (draws : Nat → Nat × Nat)
    (gasEnv : GasPriceEnv) (noFeePayer : Bool) (timeDeltaMs : Int) (nowMs : Int)
    (data : InputEntryFunctionData) (sender : List Nat)
    (simulatedMaxGas simulatedGasPrice : Int) : Except String SimpleTxn :=
  buildTx abi chainId draws gasEnv noFeePayer timeDeltaMs nowMs data sender
    (some (sendTxRebuildMaxGas simulatedMaxGas))
    (some (sendTxRebuildGasPrice simulatedGasPrice))

/-! ## Parsed JSON values

The output shape of `json.loads` with the bigint reviver already applied
(revived big integers are plain `num`s).  Shared by the poll loop and the
WebSocket message parser. -/

inductive Json where
  | null
  | bool (b : Bool)
  | num (n : Int)
  | str (s : String)
  | arr (xs : List Json)
  | obj (fields : List (String × Json))

/-! ## Transaction polling (`_base.py _wait_for_transaction`) -/

/-- One GET of the by-hash endpoint: the HTTP-level success flag and the
parsed JSON object body (consulted only on HTTP success). -/
structure NodeResponse where
  isSuccess : Bool
  body : List (String × Json)

/-- `data.get("vm_status", "Unknown error")` (a non-string status would be
`str()`-formatted by Python; modelled as the default). -/
def getVmStatus (fields : List (String × Json)) : String :=
  match fields.lookup "vm_status" with
  | some (.str s) => s
  | _ => "Unknown error"

inductive WaitResult where
  | success (body : List (String × Json))
  | txFailed (vmStatus : String)
  | timedOut (message : String)

/-- One iteration's inspection of the by-hash response in
`_wait_for_transaction`: HTTP failures, pending status and bodies without
a boolean `success` are not terminal (`Option.none` = fall through to the
timeout check); `success=true` returns the payload; `success=false`
raises with the VM status. -/
def pollInspect (r : NodeResponse) : Option WaitResult :=
  if r.isSuccess then
    match r.body.lookup "type" with
    | some (Json.str "pending_transaction") => Option.none
    | _ =>
      match r.body.lookup "success" with
      | some (Json.bool true) => some (.success r.body)
      | some (Json.bool false) => some (.txFailed (getVmStatus r.body))
      | _ => Option.none
  else Option.none

/-- The `TimeoutError` text (the source formats the float bound, e.g.
`30.0`; the bound is modelled as a natural number). -/
def timeoutMessage (txHash : String) (timeoutSecs : Nat) : String :=
  s!"Transaction {txHash} did not complete within {timeoutSecs}s"

/-- `_wait_for_transaction`'s poll loop, over the stream of node responses
(`responses i` = the GET result of iteration `i`) and the wall clock
(`timeUp i` = whether `time.time() - start_time > timeout_secs` holds at
iteration `i`'s check).  `fuel` bounds how many iterations are inspected;
`Option.none` means the loop is still running after `fuel` iterations. -/
def waitForTransaction (txHash : String) (timeoutSecs : Nat) (responses : Nat → NodeResponse)
    (timeUp : Nat → Bool) : Nat → Nat → Option WaitResult
  | _, 0 => Option.none
  | i, fuel + 1 =>
    match pollInspect (responses i) with
    | some res => some res
    | Option.none =>
      if timeUp i then some (.timedOut (timeoutMessage txHash timeoutSecs))
      else waitForTransaction txHash timeoutSecs responses timeUp (i + 1) fuel

/-! ## Fee-Payer Submitter (`_fee_pay.py`) -/

inductive Network where
  | mainnet
  | testnet
  | custom
deriving DecidableEq

/-- The slice of `DecibelConfig` the fee-pay module reads. -/
structure FeePayConfig where
  network : Network
  gasStationUrl : Option String
  gasStationApiKey : Option String
  chainId : Option Nat
deriving DecidableEq

/-- Python truthiness of an optional string (`None` and `""` are falsy). -/
def pyTruthyStr : Option String → Bool
  | Option.none => false
  | some s => s != ""

/-- `_get_default_gas_station_url(config)`. -/
def getDefaultGasStationUrl (config : FeePayConfig) : Except String String :=
  if config.network = Network.testnet then .ok "https://api.testnet.aptoslabs.com/gs/v1"
  else if config.chainId = some 208 then .ok "https://api.netna.aptoslabs.com/gs/v1"
  else if pyTruthyStr config.gasStationUrl then .ok (config.gasStationUrl.getD "")
  else .error "gas_station_url must be provided for custom networks when using gas_station_api_key"

/-- Which relay protocol a submission goes through, with the URL POSTed to. -/
inductive RelayRoute where
  | gasStationApi (postUrl : String)
  | legacyFeePayer (postUrl : String)
deriving DecidableEq

/-- The relay selection and target-URL computation of
`submit_fee_paid_transaction` (sync and async bodies are identical):
prefer the bearer-token relay (`_submit_via_gas_station_api`, base URL
from `_get_default_gas_station_url`) when an API key is configured, else
the legacy relay (`_submit_via_legacy_fee_payer`, base URL taken directly
from the config) when a URL is configured, else a configuration error.
The HTTP exchange itself is external. -/
def submitFeePaidRoute (config : FeePayConfig) : Except String RelayRoute :=
  if pyTruthyStr config.gasStationApiKey then
    match getDefaultGasStationUrl config with
    | .error e => .error e
    | .ok base => .ok (.gasStationApi (base ++ "/api/transaction/signAndSubmit"))
  else if pyTruthyStr config.gasStationUrl then
    .ok (.legacyFeePayer ((config.gasStationUrl.getD "") ++ "/transactions"))
  else .error "Either gas_station_api_key or gas_station_url must be provided"

/-! ## Gas Price Source (`_gas_price_manager.py`) -/

structure GasPriceInfo where
  gasEstimate : Int
  timestamp : Int
deriving DecidableEq

/-- The mutable state of a `GasPriceManager` (`GasPriceManagerSync` is the
same machine with a thread in place of the task). -/
structure GasPriceManagerState where
  gasPrice : Option GasPriceInfo
  refreshTaskRunning : Bool
  isInitialized : Bool
deriving DecidableEq

/-- `GasPriceManager.fetch_and_set_gas_price`, with the outcome of the
network fetch (`fetch_gas_price_estimation`, multiplier already applied)
passed explicitly.  A zero estimate is falsy and raises before the cache
is touched; on success the cache is set and the estimate returned. -/
def fetchAndSetGasPrice (st : GasPriceManagerState) (fetchResult : Except String Int)
    (now : Int) : GasPriceManagerState × Except String Int :=
  match fetchResult with
  | .error e => (st, .error e)
  | .ok gasEstimate =>
    if gasEstimate = 0 then (st, .error "Gas estimation returned no gas estimate")
    else ({ st with gasPrice := some { gasEstimate, timestamp := now } }, .ok gasEstimate)

/-- `GasPriceManager.initialize` / `GasPriceManagerSync.initialize` (the
bodies are structurally identical): a no-op when already initialized;
otherwise fetch-and-set, start the refresh loop and mark initialized — the
whole body inside a `try` whose handler only logs.  Totality of this
state-transition function is the model of "the handler swallows every
exception and the call returns normally". -/
def initGasPriceManager (st : GasPriceManagerState) (fetchResult : Except String Int)
    (now : Int) : GasPriceManagerState :=
  if st.isInitialized then st
  else
    match fetchAndSetGasPrice st fetchResult now with
    | (st2, .ok _) => { st2 with refreshTaskRunning := true, isInitialized := true }
    | (st2, .error _) => st2

/-! ## WebSocket Subscription Multiplexer (`read/_ws.py`) -/

/-- `DecibelWsSubscription._parse_message`, over the already-parsed JSON
value (the `json.loads` wire decode with the bigint reviver is external; a
decode failure raises before this logic runs).  `Except.ok Option.none` is
the silent discard of a control-acknowledgement response; `ok (some _)`
carries the topic and the remaining payload fields. -/
def parseMessage (j : Json) : Except String (Option (String × List (String × Json))) :=
  match j with
  | .obj fields =>
    match fields.lookup "topic" with
    | some (Json.str topic) =>
      if (fields.lookup "success").isSome then .ok Option.none
      else .ok (some (topic, fields.filter (fun kv => kv.1 ≠ "topic")))
    | _ => .error "Unhandled WebSocket message: missing topic field"
  | _ => .error "Unhandled WebSocket message: missing topic field"

/-- The multiplexer state the unsubscribe path touches: the
subscription-topic map (`self._subscriptions`, topics to listener sets —
listeners identified by ids) and whether a socket is attached
(`self._ws is not None`). -/
structure WsState where
  subscriptions : List (String × List Nat)
  wsOpen : Bool
deriving DecidableEq

/-- The observable effects of one unsubscribe call: the topic named in an
outbound unsubscribe control message, if one was sent, and whether the
grace-period close timer was started. -/
structure UnsubEffect where
  sentUnsubscribeFor : Option String
  closeTimerStarted : Bool
deriving DecidableEq

/-- `_unsubscribe_topic(topic)`: absent topics are ignored; otherwise the
topic is dropped, an unsubscribe control message is sent when a socket is
attached, and the close timer starts when the map became empty. -/
def unsubscribeTopic (st : WsState) (topic : String) : WsState × UnsubEffect :=
  if (st.subscriptions.lookup topic).isSome then
    let remaining := st.subscriptions.filter (fun kv => kv.1 ≠ topic)
    ({ st with subscriptions := remaining },
     { sentUnsubscribeFor := if st.wsOpen then some topic else Option.none,
       closeTimerStarted := remaining.isEmpty })
  else (st, { sentUnsubscribeFor := Option.none, closeTimerStarted := false })

/-- `_unsubscribe_listener(topic, listener)` — the body of the
`unsubscribe` closure returned by `subscribe`: ignore unknown topics;
discard the listener from the topic's set; when the set becomes empty,
run `_unsubscribe_topic`. -/
def unsubscribeListener (st : WsState) (topic : String) (l : Nat) : WsState × UnsubEffect :=
  match st.subscriptions.lookup topic with
  | Option.none => (st, { sentUnsubscribeFor := Option.none, closeTimerStarted := false })
  | some listeners =>
    let remaining := listeners.filter (fun x => x ≠ l)
    let st2 : WsState :=
      { st with subscriptions :=
          st.subscriptions.map (fun kv => if kv.1 = topic then (kv.1, remaining) else kv) }
    if remaining.isEmpty then unsubscribeTopic st2 topic
    else (st2, { sentUnsubscribeFor := Option.none, closeTimerStarted := false })

/-! ## Claims -/

/-- C2: whenever the send flow's simulation branch runs with integer
simulation results, the rebuilt envelope uses
`max_gas = min(max(2 * simulated_max_gas, 200000), 2000000)` and
`gas_unit_price = max(simulated_gas_price, 1)`, for every pair of
simulated integers. -/
theorem c2_gas_rebuild_arithmetic (abi : Option MoveFunction) (chainId : Option Nat)
    (draws : Nat → Nat × Nat) (gasEnv : GasPriceEnv) (noFeePayer : Bool)
    (timeDeltaMs nowMs : Int) (data : InputEntryFunctionData) (sender : List Nat)
    (simulatedMaxGas simulatedGasPrice : Int) (tx : SimpleTxn)
    (h : sendTxRebuild abi chainId draws gasEnv noFeePayer timeDeltaMs nowMs data sender
      simulatedMaxGas simulatedGasPrice = .ok tx) :
    tx.rawTransaction.maxGasAmount = min (max (2 * simulatedMaxGas) 200000) 2000000 ∧
    tx.rawTransaction.gasUnitPrice = max simulatedGasPrice 1 := by
  have hge : (200000 : Int) ≤ sendTxRebuildMaxGas simulatedMaxGas := by
    have h1 : (200000 : Int) ≤ max (simulatedMaxGas * 2) DEFAULT_MAX_GAS_AMOUNT :=
      le_max_right _ _
    have h2 : (200000 : Int) ≤ MAX_GAS_UNITS_LIMIT := by norm_num [MAX_GAS_UNITS_LIMIT]
    exact le_min h1 h2
  simp only [sendTxRebuild, buildTx] at h
  split at h
  · exact absurd h (by simp)
  · split at h
    · simp only [resolveGasUnitPrice] at h
      simp only [buildSimpleTransactionSync] at h
      split at h
      · exact absurd h (by simp)
      · injection h with h
        subst h
        refine ⟨?_, rfl⟩
        have hne : sendTxRebuildMaxGas simulatedMaxGas ≠ 0 := by omega
        simp only [pyOrInt, if_neg hne]
        simp only [sendTxRebuildMaxGas, DEFAULT_MAX_GAS_AMOUNT, MAX_GAS_UNITS_LIMIT]
        ring_nf
    · exact absurd h (by simp)

/-- A fallback value for reading off the payload of a known-successful
`Except` computation. -/
def exceptOkD {α : Type} (d : α) : Except String α → α
  | .ok a => a
  | .error _ => d

def dummySimpleTxn : SimpleTxn :=
  { rawTransaction :=
      { sender := [], sequenceNumber := 0,
        payload := { entryFunction := ⟨"", "", "", [], []⟩,
                     multisigAddress := Option.none, replayProtectionNonce := Option.none },
        maxGasAmount := 0, gasUnitPrice := 0, expirationTimestampSecs := 0, chainId := 0 },
    feePayerAddress := Option.none }

/-- A no-parameter entry function signature used by concrete instances. -/
def simpleAbi : MoveFunction := { name := "f", isEntry := true, params := [] }

def c2WitnessTx : SimpleTxn :=
  exceptOkD dummySimpleTxn
    (sendTxRebuild (some simpleAbi) (some 1) (fun _ => (1, 1)) (.noManager (.ok 100)) false 0 0
      { function := "0x1::m::f" } [] 50000 0)

/-- Witness for C2 at simulated `max_gas = 50000`, `gas_unit_price = 0`. -/
theorem c2_gas_rebuild_arithmetic_witness :
    c2WitnessTx.rawTransaction.maxGasAmount = min (max (2 * 50000) 200000) 2000000 ∧
    c2WitnessTx.rawTransaction.gasUnitPrice = max 0 1 :=
  c2_gas_rebuild_arithmetic (some simpleAbi) (some 1) (fun _ => (1, 1))
    (.noManager (.ok 100)) false 0 0 { function := "0x1::m::f" } [] 50000 0 c2WitnessTx (by rfl)

/-- C3 counterexample: the pipeline's build step does not redraw the
nonce.  With a first draw whose high half is zero and a perfectly good
second draw available, `build_tx` raises the internal error instead of
retrying (the claim predicts a successful build from the redraw). -/
theorem c3_no_redraw_counterexample :
    buildTx (some simpleAbi) (some 1) (fun i => if i = 0 then (0, 5) else (7, 7))
        (.noManager (.ok 100)) false 0 0 { function := "0x1::m::f" } [] =
      .error "Unable to generate replay protection nonce" ∧
    generateRandomReplayProtectionNonce ((fun i => if i = 0 then (0, 5) else (7, 7)) 1) =
      some 30064771079 :=
  ⟨rfl, by decide⟩

/-- C3 (amended): `build_tx` draws the nonce exactly once; when either
32-bit half of that single draw is zero it fails immediately with the
internal error, and the outcome never depends on any later draw. -/
theorem c3_single_nonce_draw (abi : Option MoveFunction) (chainId : Option Nat)
    (draws : Nat → Nat × Nat) (gasEnv : GasPriceEnv) (noFeePayer : Bool)
    (timeDeltaMs nowMs : Int) (data : InputEntryFunctionData) (sender : List Nat)
    (maxGasAmount gasUnitPrice : Option Int) :
    ((draws 0).1 = 0 ∨ (draws 0).2 = 0 →
      buildTx abi chainId draws gasEnv noFeePayer timeDeltaMs nowMs data sender
          maxGasAmount gasUnitPrice =
        .error "Unable to generate replay protection nonce") ∧
    (∀ draws2 : Nat → Nat × Nat, draws2 0 = draws 0 →
      buildTx abi chainId draws2 gasEnv noFeePayer timeDeltaMs nowMs data sender
          maxGasAmount gasUnitPrice =
        buildTx abi chainId draws gasEnv noFeePayer timeDeltaMs nowMs data sender
          maxGasAmount gasUnitPrice) := by
  constructor
  · intro hz
    have : generateRandomReplayProtectionNonce (draws 0) = Option.none := by
      rcases hz with hz | hz <;> simp [generateRandomReplayProtectionNonce, hz]
    simp [buildTx, this]
  · intro draws2 h0
    simp only [buildTx, h0]

/-- Witness for C3 (amended) at a degenerate first draw. -/
theorem c3_single_nonce_draw_witness :
    buildTx (some simpleAbi) (some 1) (fun _ => (0, 5)) (.noManager (.ok 100)) false 0 0
        { function := "0x1::m::f" } [] Option.none Option.none =
      .error "Unable to generate replay protection nonce" :=
  (c3_single_nonce_draw (some simpleAbi) (some 1) (fun _ => (0, 5)) (.noManager (.ok 100))
    false 0 0 { function := "0x1::m::f" } [] Option.none Option.none).1 (Or.inl rfl)

/-- C4 counterexample: `build_simple_transaction_sync` invoked without an
explicit maximum-gas-units ceiling uses its own parameter default of
100000 units, not the claimed 200000. -/
theorem c4_builder_default_counterexample :
    (buildSimpleTransactionSync [] { function := "0x1::m::f" } 1 100 simpleAbi true 5 0).map
        (fun tx => tx.rawTransaction.maxGasAmount) = .ok 100000 ∧
    (100000 : Int) ≠ 200000 :=
  ⟨rfl, by decide⟩

/-- C4 (amended): the builder's own signature default is 100000 units; it
is the pipeline's build step (`build_tx`) that, when called without an
explicit ceiling, passes `DEFAULT_MAX_GAS_AMOUNT`, so every envelope built
through the pipeline without an explicit ceiling carries 200000 units. -/
theorem c4_pipeline_default_max_gas (abi : Option MoveFunction) (chainId : Option Nat)
    (draws : Nat → Nat × Nat) (gasEnv : GasPriceEnv) (noFeePayer : Bool)
    (timeDeltaMs nowMs : Int) (data : InputEntryFunctionData) (sender : List Nat)
    (gasUnitPrice : Option Int) (tx : SimpleTxn)
    (h : buildTx abi chainId draws gasEnv noFeePayer timeDeltaMs nowMs data sender
      Option.none gasUnitPrice = .ok tx) :
    tx.rawTransaction.maxGasAmount = 200000 := by
  simp only [buildTx] at h
  split at h
  · exact absurd h (by simp)
  · split at h
    · rcases hg : resolveGasUnitPrice gasUnitPrice _ with e | gup <;> rw [hg] at h
      · exact absurd h (by simp)
      · simp only [buildSimpleTransactionSync] at h
        split at h
        · exact absurd h (by simp)
        · injection h with h
          subst h
          rfl
    · exact absurd h (by simp)

def c4WitnessTx : SimpleTxn :=
  exceptOkD dummySimpleTxn
    (buildTx (some simpleAbi) (some 1) (fun _ => (1, 1)) (.noManager (.ok 100)) false 0 0
      { function := "0x1::m::f" } [] Option.none Option.none)

/-- Witness for C4 (amended): a concrete pipeline build with no ceiling. -/
theorem c4_pipeline_default_max_gas_witness :
    c4WitnessTx.rawTransaction.maxGasAmount = 200000 :=
  c4_pipeline_default_max_gas (some simpleAbi) (some 1) (fun _ => (1, 1))
    (.noManager (.ok 100)) false 0 0 { function := "0x1::m::f" } [] Option.none c4WitnessTx
    (by rfl)

/-- C9: `initialize()` never propagates an exception (the transition
function is total); when the initial fetch fails the state is left exactly
as it was — uninitialized, no cached price stored, no refresh loop running
— and a later call with a successful fetch still transitions to active. -/
theorem c9_init_never_raises (st : GasPriceManagerState) (e : String) (now now2 g : Int)
    (hinit : st.isInitialized = false) (hg : g ≠ 0) :
    initGasPriceManager st (.error e) now = st ∧
    (initGasPriceManager st (.ok g) now2).isInitialized = true ∧
    (initGasPriceManager st (.ok g) now2).refreshTaskRunning = true ∧
    (initGasPriceManager st (.ok g) now2).gasPrice =
      some { gasEstimate := g, timestamp := now2 } := by
  refine ⟨?_, ?_⟩
  · simp [initGasPriceManager, fetchAndSetGasPrice, hinit]
  · simp [initGasPriceManager, fetchAndSetGasPrice, hinit, hg]

/-- Witness for C9 at a fresh manager, a failed first fetch and a later
successful fetch of 200. -/
theorem c9_init_never_raises_witness :
    initGasPriceManager ⟨Option.none, false, false⟩ (.error "fetch failed") 10 =
      ⟨Option.none, false, false⟩ ∧
    (initGasPriceManager ⟨Option.none, false, false⟩ (.ok 200) 11).isInitialized = true ∧
    (initGasPriceManager ⟨Option.none, false, false⟩ (.ok 200) 11).refreshTaskRunning = true ∧
    (initGasPriceManager ⟨Option.none, false, false⟩ (.ok 200) 11).gasPrice =
      some { gasEstimate := 200, timestamp := 11 } :=
  c9_init_never_raises ⟨Option.none, false, false⟩ "fetch failed" 10 11 200 rfl (by decide)

/-- C10: a non-success HTTP response is never terminal for the poll loop
(first conjunct), so a response sequence with no terminal status ends in
exactly the timeout error naming the hash and the bound once the clock
runs out — even if every response was an HTTP failure. -/
theorem c10_poll_timeout (txHash : String) (timeoutSecs : Nat)
    (responses : Nat → NodeResponse) (timeUp : Nat → Bool) (i fuel k : Nat)
    (hterm : ∀ j, pollInspect (responses j) = Option.none)
    (hk1 : i ≤ k) (hk2 : k < i + fuel) (hk3 : timeUp k = true) :
    (∀ r : NodeResponse, r.isSuccess = false → pollInspect r = Option.none) ∧
    waitForTransaction txHash timeoutSecs responses timeUp i fuel =
      some (.timedOut (timeoutMessage txHash timeoutSecs)) := by
  refine ⟨fun r hr => by simp [pollInspect, hr], ?_⟩
  induction fuel generalizing i with
  | zero => omega
  | succ fuel ih =>
    rw [waitForTransaction, hterm i]
    by_cases hi : timeUp i = true
    · simp [hi]
    · have hki : i ≠ k := fun he => hi (he ▸ hk3)
      simp only [hi, Bool.false_eq_true, if_false]
      exact ih (i + 1) (by omega) (by omega)

def c10Responses : Nat → NodeResponse := fun _ => { isSuccess := false, body := [] }

def c10TimeUp : Nat → Bool := fun j => decide (2 ≤ j)

/-- Witness for C10: five iterations of HTTP failures with the clock
expiring at the third iteration. -/
theorem c10_poll_timeout_witness :
    waitForTransaction "0xabc" 30 c10Responses c10TimeUp 0 5 =
      some (.timedOut (timeoutMessage "0xabc" 30)) :=
  (c10_poll_timeout "0xabc" 30 c10Responses c10TimeUp 0 5 2 (fun j => rfl) (by decide)
    (by decide) (by decide)).2

/-- C1: every transaction the builder produces carries the sentinel
sequence number, and the BCS serialization of its payload is exactly the
orderless outer tag (4), the inner payload-version tag (0), the
entry-function executable tag (1), the entry function's own encoding, the
extra-config version tag (0), the absent-multisig byte (0), the
present-nonce byte (1), and the replay nonce as a 64-bit little-endian
integer. -/
theorem c1_orderless_envelope_serialization
    (sender : List Nat) (data : InputEntryFunctionData) (chainId : Nat) (gasUnitPrice : Int)
    (abi : MoveFunction) (withFeePayer : Bool) (nonce : Nat)
    (nowMs timeDeltaMs maxGasAmount expirySec : Int) (tx : SimpleTxn)
    (encodeEntryFunction : EntryFn → List Nat)
    (_hn : nonce < 2 ^ 64)
    (h : buildSimpleTransactionSync sender data chainId gasUnitPrice abi withFeePayer nonce
      nowMs timeDeltaMs maxGasAmount expirySec = .ok tx) :
    tx.rawTransaction.sequenceNumber = 0xDEADBEEF ∧
    serializeTransactionPayloadOrderless encodeEntryFunction tx.rawTransaction.payload =
      [4] ++ [0] ++ [1] ++ encodeEntryFunction tx.rawTransaction.payload.entryFunction ++
        [0] ++ [0] ++ [1] ++ u64LE nonce := by
  simp only [buildSimpleTransactionSync] at h
  split at h
  · exact absurd h (by simp)
  · injection h with h
    subst h
    refine ⟨rfl, ?_⟩
    simp [serializeTransactionPayloadOrderless, serializeTransactionInnerPayloadV1,
      serializeTransactionExecutableEntryFunction, serializeTransactionExtraConfigV1,
      PAYLOAD_VARIANT_ORDERLESS, INNER_PAYLOAD_VARIANT_V1, EXECUTABLE_VARIANT_ENTRY_FUNCTION,
      EXTRA_CONFIG_VARIANT_V1, uleb128_single]

def c1WitnessTx : SimpleTxn :=
  exceptOkD dummySimpleTxn
    (buildSimpleTransactionSync [] { function := "0x1::m::f" } 1 100 simpleAbi true 5 0)

/-- Witness for C1 at a concrete build (nonce 5) and a concrete
entry-function encoder. -/
theorem c1_orderless_envelope_serialization_witness :
    (5 : Nat) < 2 ^ 64 ∧
    c1WitnessTx.rawTransaction.sequenceNumber = 0xDEADBEEF ∧
    serializeTransactionPayloadOrderless (fun _ => [9]) c1WitnessTx.rawTransaction.payload =
      [4] ++ [0] ++ [1] ++
        (fun _ : EntryFn => [9]) c1WitnessTx.rawTransaction.payload.entryFunction ++
        [0] ++ [0] ++ [1] ++ u64LE 5 :=
  ⟨by decide,
    c1_orderless_envelope_serialization [] { function := "0x1::m::f" } 1 100 simpleAbi true 5
      0 0 100000 20 c1WitnessTx (fun _ => [9]) (by decide) (by rfl)⟩

/-- C5 counterexample: a message carrying a `success` field but no `topic`
field is not silently discarded — the parser raises the missing-topic
error (the claim predicts a silent discard regardless of the `topic`
field). -/
theorem c5_success_discard_counterexample :
    parseMessage (Json.obj [("success", Json.bool true)]) =
      .error "Unhandled WebSocket message: missing topic field" ∧
    parseMessage (Json.obj [("success", Json.bool true)]) ≠ .ok Option.none :=
  ⟨rfl, fun h => Except.noConfusion h⟩

/-- C5 (amended): a message carrying a `success` field is silently
discarded (never dispatched, no parse error) only when it also carries a
string-valued `topic` field; a message without a `topic` field raises the
missing-topic parse error even when it carries `success`. -/
theorem c5_success_discard (fields : List (String × Json)) :
    (∀ topic, fields.lookup "topic" = some (Json.str topic) →
      (fields.lookup "success").isSome = true →
      parseMessage (Json.obj fields) = .ok Option.none) ∧
    (fields.lookup "topic" = Option.none →
      parseMessage (Json.obj fields) =
        .error "Unhandled WebSocket message: missing topic field") := by
  constructor
  · intro topic htopic hsuccess
    simp [parseMessage, htopic, hsuccess]
  · intro htopic
    simp [parseMessage, htopic]

/-- Witness for C5 (amended): an acknowledgement carrying both fields is
discarded; one with only `success` raises. -/
theorem c5_success_discard_witness :
    parseMessage (Json.obj [("topic", Json.str "t"), ("success", Json.bool true)]) =
      .ok Option.none ∧
    parseMessage (Json.obj [("success", Json.bool false)]) =
      .error "Unhandled WebSocket message: missing topic field" :=
  ⟨(c5_success_discard [("topic", Json.str "t"), ("success", Json.bool true)]).1 "t" rfl rfl,
    (c5_success_discard [("success", Json.bool false)]).2 rfl⟩

/-- C6 counterexample: with no relay URL configured (and no API key), a
testnet submission does not fall back to the hardcoded default URL for the
legacy relay — it fails with the configuration error (the hardcoded
testnet/chain-208 fallbacks live in the bearer-token path's URL
resolution, which this configuration never reaches). -/
theorem c6_legacy_relay_counterexample :
    submitFeePaidRoute
        { network := Network.testnet, gasStationUrl := Option.none,
          gasStationApiKey := Option.none, chainId := some 2 } =
      .error "Either gas_station_api_key or gas_station_url must be provided" ∧
    submitFeePaidRoute
        { network := Network.testnet, gasStationUrl := Option.none,
          gasStationApiKey := Option.none, chainId := some 2 } ≠
      .ok (.legacyFeePayer "https://api.testnet.aptoslabs.com/gs/v1/transactions") :=
  ⟨rfl, fun h => Except.noConfusion h⟩

/-- C6 (amended): the legacy relay has no URL fallback — it is selected
only when a relay URL is explicitly configured (and no API key is), and
then POSTs to exactly that URL; with neither key nor URL the submission
fails with the configuration error; the hardcoded testnet default belongs
to the bearer-token relay's base-URL resolution. -/
theorem c6_relay_url_selection (config : FeePayConfig) (url : String) :
    (pyTruthyStr config.gasStationApiKey = false → config.gasStationUrl = some url →
      url ≠ "" →
      submitFeePaidRoute config = .ok (.legacyFeePayer (url ++ "/transactions"))) ∧
    (pyTruthyStr config.gasStationApiKey = false → pyTruthyStr config.gasStationUrl = false →
      submitFeePaidRoute config =
        .error "Either gas_station_api_key or gas_station_url must be provided") ∧
    (pyTruthyStr config.gasStationApiKey = true → config.network = Network.testnet →
      submitFeePaidRoute config =
        .ok (.gasStationApi
          "https://api.testnet.aptoslabs.com/gs/v1/api/transaction/signAndSubmit")) := by
  refine ⟨?_, ?_, ?_⟩
  · intro hkey hurl hne
    simp only [submitFeePaidRoute, hkey, Bool.false_eq_true, if_false]
    simp [pyTruthyStr, hurl, hne]
  · intro hkey hurl
    simp [submitFeePaidRoute, hkey, hurl]
  · intro hkey hnet
    simp [submitFeePaidRoute, getDefaultGasStationUrl, hkey, hnet]

/-- Witness for C6 (amended) at three concrete configurations. -/
theorem c6_relay_url_selection_witness :
    submitFeePaidRoute
        { network := Network.custom, gasStationUrl := some "http://localhost:8085",
          gasStationApiKey := Option.none, chainId := Option.none } =
      .ok (.legacyFeePayer "http://localhost:8085/transactions") ∧
    submitFeePaidRoute
        { network := Network.custom, gasStationUrl := Option.none,
          gasStationApiKey := Option.none, chainId := Option.none } =
      .error "Either gas_station_api_key or gas_station_url must be provided" ∧
    submitFeePaidRoute
        { network := Network.testnet, gasStationUrl := Option.none,
          gasStationApiKey := some "key", chainId := some 2 } =
      .ok (.gasStationApi
        "https://api.testnet.aptoslabs.com/gs/v1/api/transaction/signAndSubmit") :=
  ⟨(c6_relay_url_selection
      { network := Network.custom, gasStationUrl := some "http://localhost:8085",
        gasStationApiKey := Option.none, chainId := Option.none }
      "http://localhost:8085").1 rfl rfl (by decide),
    (c6_relay_url_selection
      { network := Network.custom, gasStationUrl := Option.none,
        gasStationApiKey := Option.none, chainId := Option.none } "").2.1 rfl rfl,
    (c6_relay_url_selection
      { network := Network.testnet, gasStationUrl := Option.none,
        gasStationApiKey := some "key", chainId := some 2 } "").2.2 (by decide) rfl⟩

/-- When the element loop succeeds it returns one encoding per argument,
each produced by `encodeArgument` on the positionally corresponding
argument/type pair. -/
theorem encodeArgsLoop_spec :
    ∀ (args : List Arg) (ts : List String) (encoded : List (List Nat)),
    encodeArgsLoop args ts = .ok encoded →
    encoded.length = args.length ∧
    ∀ i (h1 : i < encoded.length) (h2 : i < args.length) (h3 : i < ts.length),
      encodeArgument (args.get ⟨i, h2⟩) (ts.get ⟨i, h3⟩) = .ok (encoded.get ⟨i, h1⟩) := by
  intro args
  induction args with
  | nil =>
    intro ts encoded h
    cases ts with
    | nil =>
      simp only [encodeArgsLoop] at h
      injection h with h
      subst h
      exact ⟨rfl, fun i h1 => absurd h1 (by simp)⟩
    | cons t ts => exact absurd h (by simp [encodeArgsLoop])
  | cons a as ih =>
    intro ts encoded h
    cases ts with
    | nil => exact absurd h (by simp [encodeArgsLoop])
    | cons t ts =>
      simp only [encodeArgsLoop] at h
      cases hA : encodeArgument a t with
      | error e => rw [hA] at h; exact absurd h (by simp)
      | ok b =>
        rw [hA] at h
        cases hR : encodeArgsLoop as ts with
        | error e => rw [hR] at h; exact absurd h (by simp)
        | ok rest =>
          rw [hR] at h
          injection h with h
          subst h
          obtain ⟨hlen, hspec⟩ := ih ts rest hR
          refine ⟨by simp [hlen], ?_⟩
          intro i h1 h2 h3
          cases i with
          | zero => simpa using hA
          | succ j =>
            have := hspec j (by simpa using h1) (by simpa using h2) (by simpa using h3)
            simpa using this

/-- C7: whenever the caller-supplied argument list's length differs from
the declared parameter list's length after dropping the leading
signer-type parameters, encoding fails with the count-mismatch error and
the entry-function build produces no envelope; when the lengths match,
each argument is encoded against its positionally corresponding filtered
parameter type. -/
theorem c7_argument_count_matching (args : List Arg) (params : List String) :
    (args.length ≠ (params.drop (findFirstNonSignerArg params)).length →
      encodeFunctionArguments args (params.drop (findFirstNonSignerArg params)) =
        .error (countMismatchMsg (params.drop (findFirstNonSignerArg params)).length
          args.length) ∧
      ∀ (data : InputEntryFunctionData) (abi : MoveFunction) (a m f : String),
        data.functionArguments = args → abi.params = params →
        splitOnColons data.function = [a, m, f] →
        buildEntryFunction data abi =
          .error (countMismatchMsg (params.drop (findFirstNonSignerArg params)).length
            args.length)) ∧
    (∀ encoded,
      encodeFunctionArguments args (params.drop (findFirstNonSignerArg params)) =
        .ok encoded →
      encoded.length = args.length ∧
      ∀ i (h1 : i < encoded.length) (h2 : i < args.length)
        (h3 : i < (params.drop (findFirstNonSignerArg params)).length),
        encodeArgument (args.get ⟨i, h2⟩)
          ((params.drop (findFirstNonSignerArg params)).get ⟨i, h3⟩) =
          .ok (encoded.get ⟨i, h1⟩)) := by
  constructor
  · intro hne
    have he : encodeFunctionArguments args (params.drop (findFirstNonSignerArg params)) =
        .error (countMismatchMsg (params.drop (findFirstNonSignerArg params)).length
          args.length) := by
      simp only [encodeFunctionArguments]
      rw [if_pos hne]
    refine ⟨he, ?_⟩
    intro data abi a m f hargs hparams hsplit
    simp only [buildEntryFunction, hsplit, hargs, hparams, he]
  · intro encoded h
    simp only [encodeFunctionArguments] at h
    split at h
    · exact absurd h (by simp)
    · exact encodeArgsLoop_spec args _ encoded h

/-- Witness for C7: two `u64` arguments against three non-signer
parameters (after dropping the leading signer) fail with the
count-mismatch error, in the encoder and through the entry-function
builder. -/
theorem c7_argument_count_matching_witness :
    encodeFunctionArguments [Arg.int 1, Arg.int 2]
        (["&signer", "u64", "u64", "u64"].drop
          (findFirstNonSignerArg ["&signer", "u64", "u64", "u64"])) =
      .error (countMismatchMsg 3 2) ∧
    buildEntryFunction
        { function := "0x1::m::f", functionArguments := [Arg.int 1, Arg.int 2] }
        { name := "f", isEntry := true, params := ["&signer", "u64", "u64", "u64"] } =
      .error (countMismatchMsg 3 2) := by
  have h := (c7_argument_count_matching [Arg.int 1, Arg.int 2]
    ["&signer", "u64", "u64", "u64"]).1 (by decide)
  exact ⟨h.1, h.2 { function := "0x1::m::f", functionArguments := [Arg.int 1, Arg.int 2] }
    { name := "f", isEntry := true, params := ["&signer", "u64", "u64", "u64"] }
    "0x1" "m" "f" rfl rfl (by decide)⟩

/-! Association-list lemmas for the subscription-topic map. -/

theorem lookup_filterNe_self (xs : List (String × List Nat)) (k : String) :
    (xs.filter (fun kv => kv.1 ≠ k)).lookup k = Option.none := by
  induction xs with
  | nil => rfl
  | cons kv xs ih =>
    obtain ⟨k1, v1⟩ := kv
    by_cases h : k1 = k
    · simpa [List.filter_cons, h] using ih
    · simpa [List.filter_cons, h, List.lookup_cons, beq_false_of_ne (Ne.symm h)] using ih

theorem lookup_filterNe_ne (xs : List (String × List Nat)) (k k2 : String) (h2 : k2 ≠ k) :
    (xs.filter (fun kv => kv.1 ≠ k)).lookup k2 = xs.lookup k2 := by
  induction xs with
  | nil => rfl
  | cons kv xs ih =>
    obtain ⟨k1, v1⟩ := kv
    by_cases h : k1 = k
    · have hne : k2 ≠ k1 := fun he => h2 (he.trans h)
      simpa [List.filter_cons, h, List.lookup_cons, beq_false_of_ne hne,
        beq_false_of_ne h2] using ih
    · by_cases hk : k2 = k1
      · simp [List.filter_cons, h, List.lookup_cons, hk]
      · simpa [List.filter_cons, h, List.lookup_cons, beq_false_of_ne hk] using ih

theorem lookup_mapSet_self (xs : List (String × List Nat)) (k : String) (v : List Nat) :
    (xs.map (fun kv => if kv.1 = k then (kv.1, v) else kv)).lookup k =
      (xs.lookup k).map (fun _ => v) := by
  induction xs with
  | nil => rfl
  | cons kv xs ih =>
    obtain ⟨k1, v1⟩ := kv
    by_cases h : k1 = k
    · simp [List.map_cons, if_pos h, h, List.lookup_cons]
    · simpa [List.map_cons, if_neg h, List.lookup_cons, beq_false_of_ne (Ne.symm h)] using ih

theorem lookup_mapSet_ne (xs : List (String × List Nat)) (k k2 : String) (v : List Nat)
    (h2 : k2 ≠ k) :
    (xs.map (fun kv => if kv.1 = k then (kv.1, v) else kv)).lookup k2 = xs.lookup k2 := by
  induction xs with
  | nil => rfl
  | cons kv xs ih =>
    obtain ⟨k1, v1⟩ := kv
    by_cases h : k1 = k
    · have hne : k2 ≠ k1 := fun he => h2 (he.trans h)
      simpa [List.map_cons, if_pos h, List.lookup_cons, beq_false_of_ne hne] using ih
    · by_cases hk : k2 = k1
      · simp [List.map_cons, if_neg h, List.lookup_cons, hk]
      · simpa [List.map_cons, if_neg h, List.lookup_cons, beq_false_of_ne hk] using ih

theorem mapSet_idem (xs : List (String × List Nat)) (k : String) (v : List Nat) :
    ((xs.map (fun kv => if kv.1 = k then (kv.1, v) else kv)).map
      (fun kv => if kv.1 = k then (kv.1, v) else kv)) =
      xs.map (fun kv => if kv.1 = k then (kv.1, v) else kv) := by
  induction xs with
  | nil => rfl
  | cons kv xs ih =>
    obtain ⟨k1, v1⟩ := kv
    by_cases h : k1 = k
    · simp [List.map_cons, if_pos h, ih]
    · simp [List.map_cons, if_neg h, ih, h]

theorem filterNe_idem (xs : List Nat) (l : Nat) :
    (xs.filter (fun x => x ≠ l)).filter (fun x => x ≠ l) = xs.filter (fun x => x ≠ l) := by
  induction xs with
  | nil => rfl
  | cons x xs ih =>
    by_cases h : x = l
    · simp [List.filter_cons, h, ih]
    · simp [List.filter_cons, h, ih]

/-- C8 counterexample: in a state whose socket is currently detached
(e.g. during a reconnect backoff), unsubscribing the last listener of a
topic drops the topic and starts the close timer but sends no unsubscribe
control message — the claim predicts one unsubscribe message whenever the
topic's listener set becomes empty. -/
theorem c8_unsubscribe_counterexample :
    unsubscribeListener { subscriptions := [("t", [7])], wsOpen := false } "t" 7 =
      ({ subscriptions := [], wsOpen := false },
        { sentUnsubscribeFor := Option.none, closeTimerStarted := true }) ∧
    (Option.none : Option String) ≠ some "t" :=
  ⟨by decide, by decide⟩

/-- C8 (amended): calling the unsubscribe closure a second time is a no-op
in every multiplexer state — no unsubscribe control message, no state
mutation, no exception; the first call removes exactly its own listener
from its own topic (all other topics untouched) and, when the topic's
listener set becomes empty, drops the topic and sends one unsubscribe
control message exactly when a socket is currently attached. -/
theorem c8_unsubscribe_idempotent (st : WsState) (topic : String) (l : Nat) :
    unsubscribeListener (unsubscribeListener st topic l).1 topic l =
      ((unsubscribeListener st topic l).1,
        { sentUnsubscribeFor := Option.none, closeTimerStarted := false }) ∧
    (∀ t2, t2 ≠ topic →
      (unsubscribeListener st topic l).1.subscriptions.lookup t2 =
        st.subscriptions.lookup t2) ∧
    (∀ listeners, st.subscriptions.lookup topic = some listeners →
      (if (listeners.filter (fun x => x ≠ l)).isEmpty then
        (unsubscribeListener st topic l).1.subscriptions.lookup topic = Option.none ∧
        (unsubscribeListener st topic l).2.sentUnsubscribeFor =
          (if st.wsOpen then some topic else Option.none)
      else
        (unsubscribeListener st topic l).1.subscriptions.lookup topic =
          some (listeners.filter (fun x => x ≠ l)) ∧
        (unsubscribeListener st topic l).2.sentUnsubscribeFor = Option.none)) := by
  cases hL : st.subscriptions.lookup topic with
  | none =>
    have hr1 : unsubscribeListener st topic l =
        (st, { sentUnsubscribeFor := Option.none, closeTimerStarted := false }) := by
      simp only [unsubscribeListener, hL]
    refine ⟨?_, ?_, ?_⟩
    · rw [hr1]
      exact hr1
    · intro t2 _
      rw [hr1]
    · intro listeners hlist
      exact Option.noConfusion hlist
  | some listeners =>
    have hmap : (st.subscriptions.map
        (fun kv => if kv.1 = topic then (kv.1, listeners.filter (fun x => x ≠ l)) else kv)).lookup
          topic = some (listeners.filter (fun x => x ≠ l)) := by
      rw [lookup_mapSet_self, hL]
      rfl
    cases hE : (listeners.filter (fun x => x ≠ l)).isEmpty with
    | true =>
      have hr1 : unsubscribeListener st topic l =
          ({ subscriptions := (st.subscriptions.map
              (fun kv => if kv.1 = topic then (kv.1, listeners.filter (fun x => x ≠ l))
                else kv)).filter (fun kv => kv.1 ≠ topic),
             wsOpen := st.wsOpen },
           { sentUnsubscribeFor := if st.wsOpen then some topic else Option.none,
             closeTimerStarted := ((st.subscriptions.map
               (fun kv => if kv.1 = topic then (kv.1, listeners.filter (fun x => x ≠ l))
                 else kv)).filter (fun kv => kv.1 ≠ topic)).isEmpty }) := by
        simp only [unsubscribeListener, hL]
        rw [hE, if_pos rfl]
        simp only [unsubscribeTopic, hmap, Option.isSome_some, if_true]
      refine ⟨?_, ?_, ?_⟩
      · rw [hr1]
        simp only [unsubscribeListener, lookup_filterNe_self]
      · intro t2 ht2
        rw [hr1]
        exact (lookup_filterNe_ne _ _ _ ht2).trans (lookup_mapSet_ne _ _ _ _ ht2)
      · intro listeners2 hlist
        injection hlist with hlist
        subst hlist
        rw [hE, if_pos rfl]
        exact ⟨by rw [hr1]; exact lookup_filterNe_self _ _, by rw [hr1]⟩
    | false =>
      have hr1 : unsubscribeListener st topic l =
          ({ subscriptions := st.subscriptions.map
              (fun kv => if kv.1 = topic then (kv.1, listeners.filter (fun x => x ≠ l))
                else kv),
             wsOpen := st.wsOpen },
           { sentUnsubscribeFor := Option.none, closeTimerStarted := false }) := by
        simp only [unsubscribeListener, hL]
        rw [hE, if_neg Bool.false_ne_true]
      refine ⟨?_, ?_, ?_⟩
      · rw [hr1]
        simp only [unsubscribeListener, hmap, filterNe_idem]
        rw [hE, if_neg Bool.false_ne_true, mapSet_idem]
      · intro t2 ht2
        rw [hr1]
        exact lookup_mapSet_ne _ _ _ _ ht2
      · intro listeners2 hlist
        injection hlist with hlist
        subst hlist
        rw [hE, if_neg Bool.false_ne_true]
        exact ⟨by rw [hr1]; exact hmap, by rw [hr1]⟩

/-- Witness for C8 (amended) at a concrete two-topic state: the double
call is a no-op and the sibling topic's listeners are untouched. -/
theorem c8_unsubscribe_idempotent_witness :
    unsubscribeListener
        (unsubscribeListener ⟨[("t", [7, 8]), ("u", [9])], true⟩ "t" 7).1 "t" 7 =
      ((unsubscribeListener ⟨[("t", [7, 8]), ("u", [9])], true⟩ "t" 7).1,
        { sentUnsubscribeFor := Option.none, closeTimerStarted := false }) ∧
    (unsubscribeListener
        ⟨[("t", [7, 8]), ("u", [9])], true⟩ "t" 7).1.subscriptions.lookup "u" =
      ([("t", [7, 8]), ("u", [9])] : List (String × List Nat)).lookup "u" := by
  have h := c8_unsubscribe_idempotent ⟨[("t", [7, 8]), ("u", [9])], true⟩ "t" 7
  exact ⟨h.1, h.2.1 "u" (by decide)⟩

end Decibel
